import Mathlib

/-!
Verification of the BLE irrigation device state-reconciliation core
(`custom_components/bg22_hydro`): the payload codec, the cached device
state and its notification/command handlers (`hydro_device.py`,
class `IrrigationBLE`), and the coordinator's derived-state evaluator
(`coordinator.py`, `IrrigationCoordinator.handle_state_update`).

Modelling conventions:
* floats are modelled as exact rationals (`ℚ`); the 4-byte flow payload
  is decoded by an explicit IEEE-754 binary32 interpretation into `ℚ`
  (exponent 255, i.e. infinity/NaN, is not representable in `ℚ` and is
  mapped to 0 — no property here exercises it);
* BLE byte strings are `List ℕ` (each entry one byte);
* timestamps (`time.monotonic()`) are `ℚ` parameters;
* each handler returns the new cached state together with the number of
  snapshot publishes (`self._push()` calls) it performed;
* a raised-and-propagated exception is an `Except.error` carrying the
  state and publish count at the moment of the raise.
-/

namespace Bg22Hydro

/-- `const.py`: `ERROR_OK = 0`. -/
def ERROR_OK : ℕ := 0
/-- `const.py`: `ERROR_DRY_RUN = 1`. -/
def ERROR_DRY_RUN : ℕ := 1
/-- `const.py`: `ERROR_SENSOR_FAULT = 2`. -/
def ERROR_SENSOR_FAULT : ℕ := 2
/-- `const.py`: `ERROR_DRIVER_FAULT = 3`. -/
def ERROR_DRIVER_FAULT : ℕ := 3
/-- `const.py`: `FLOW_THRESHOLD_LPM = 0.2` (coordinator-side detection threshold). -/
def FLOW_THRESHOLD_LPM : ℚ := 0.2
/-- `const.py`: `DRY_RUN_DELAY_SEC = 5.0`. -/
def DRY_RUN_DELAY_SEC : ℚ := 5

/-- `hydro_device.py`: `self._flow_detect_thresh = 0.05` (device-side threshold). -/
def flowDetectThresh : ℚ := 0.05

/-- IEEE-754 binary32 value of the little-endian bytes `b0 b1 b2 b3`,
as produced by `struct.unpack("<f", b)` (`_unpack_f32_le`).  Exponent 255
(±inf / NaN) has no rational value and is mapped to 0; no claim uses it. -/
def f32le (b0 b1 b2 b3 : ℕ) : ℚ :=
  let bits : ℕ := b0 + 256 * b1 + 65536 * b2 + 16777216 * b3
  let e : ℕ := (bits / 2 ^ 23) % 256
  let m : ℕ := bits % 2 ^ 23
  let mag : ℚ :=
    if e = 0 then (m : ℚ) / 2 ^ 149
    else if e = 255 then 0
    else ((2 ^ 23 + m : ℕ) : ℚ) * 2 ^ e / 2 ^ 150
  if bits / 2 ^ 31 = 1 then -mag else mag

/-- The flow-payload decoding branches shared by `_on_flow_notif` (lines
233-243 of `hydro_device.py`): 4 bytes → float32 LE, 2 bytes → u16 LE
divided by 100.0, 1 byte → the byte itself; any other length is rejected
(`none`). -/
def decodeFlow (data : List ℕ) : Option ℚ :=
  match data with
  | [b0, b1, b2, b3] => some (f32le b0 b1 b2 b3)
  | [b0, b1] => some (((b0 + 256 * b1 : ℕ) : ℚ) / 100)
  | [b0] => some ((b0 : ℚ))
  | _ => none

/-- Cached state of `IrrigationBLE` (`hydro_device.py` `__init__`). -/
structure DevState where
  pump_on : Bool
  flow_lpm : Option ℚ
  error_code : ℕ
  last_flow_ts : Option ℚ
  total_volume_l : ℚ
  flow_detected : Bool
  connected : Bool
deriving DecidableEq, Repr

/-- Initial cache exactly as set in `IrrigationBLE.__init__`. -/
def initState : DevState :=
  { pump_on := false
    flow_lpm := none
    error_code := 0
    last_flow_ts := none
    total_volume_l := 0
    flow_detected := false
    connected := false }

/-- Device-side flow detection, `(self._flow_lpm or 0.0) >= self._flow_detect_thresh`
(lines 158 and 253 of `hydro_device.py`; a `None` flow reads as 0.0, and
`0.0 or 0.0` is 0.0, so `Option.getD 0` matches numerically). -/
def deviceFlowDetected (f : Option ℚ) : Bool :=
  decide (flowDetectThresh ≤ f.getD 0)

/-- `IrrigationBLE._on_flow_notif` (lines 230-258).  After a successful
decode the handler assigns `self._flow_lpm`, integrates volume against
`last_flow_ts`, and then executes `self._flow_lpm = flow` — `flow` is an
undefined name, so a `NameError` is raised there, caught by the handler's
`except` clause; consequently `self._last_flow_ts = now` and the
`self._flow_detected` recomputation (lines 251-253) never run.  The
`finally` clause pushes exactly once on every path. -/
def onFlowNotif (s : DevState) (data : List ℕ) (now : ℚ) : DevState × ℕ :=
  match decodeFlow data with
  | none => (s, 1)
  | some v =>
    let s1 := { s with flow_lpm := some v }
    let s2 :=
      match s1.last_flow_ts with
      | some ts =>
        { s1 with total_volume_l :=
            s1.total_volume_l + s1.flow_lpm.getD 0 / 60 * max 0 (now - ts) }
      | none => s1
    (s2, 1)

/-- `IrrigationBLE._on_error_notif` (lines 260-271): empty payload is
ignored, otherwise `self._error_code = data[0]`; the `finally` clause
pushes exactly once either way. -/
def onErrorNotif (s : DevState) (data : List ℕ) : DevState × ℕ :=
  match data with
  | [] => (s, 1)
  | b :: _ => ({ s with error_code := b }, 1)

/-- `IrrigationBLE._on_disconnect` (lines 168-173): clear `connected` and
`flow_detected`, push once. -/
def onDisconnect (s : DevState) : DevState × ℕ :=
  ({ s with connected := false, flow_detected := false }, 1)

/-- Whether the initial flow-rate read both succeeded at the transport
level and returned exactly 4 bytes (`struct.unpack("<f", d)` raises on any
other length). -/
def flowReadOk (r : Option (List ℕ)) : Bool :=
  match r with
  | some d => d.length == 4
  | none => false

/-- `IrrigationBLE._read_initial` (lines 149-166).  Each characteristic
read result is `some bytes` on transport success, `none` on failure; a
failure anywhere in one `try` block leaves that block's assignments
unapplied.  `_unpack_bool` / `_unpack_u8` index byte 0 (raising on an
empty payload, which the surrounding `except` swallows);
`_unpack_f32_le` requires exactly 4 bytes.  Note the flow block performs
its own `self._push()` (line 159) before `last_flow_ts` is set, and the
method ends with a second unconditional `self._push()` (line 166). -/
def readInitial (s : DevState) (rPump rFlow rErr : Option (List ℕ))
    (now : ℚ) : DevState × ℕ :=
  let s1 :=
    match rPump with
    | some (b :: _) => { s with pump_on := b != 0 }
    | _ => s
  let s2p : DevState × ℕ :=
    match rFlow with
    | some [b0, b1, b2, b3] =>
      let v := f32le b0 b1 b2 b3
      ({ s1 with flow_lpm := some v
                 flow_detected := deviceFlowDetected (some v)
                 last_flow_ts := some now }, 1)
    | _ => (s1, 0)
  let s3 :=
    match rErr with
    | some (b :: _) => { s2p.1 with error_code := b }
    | _ => s2p.1
  (s3, s2p.2 + 1)

/-- `IrrigationBLE._write_pump` (lines 179-202), from the point where the
connectivity guard has passed (the write is actually attempted).
`writeOk` is whether `write_gatt_char` succeeds.  On success the cached
pump state is set; turning off additionally integrates residual volume
since `last_flow_ts` (clamped at 0), then forces `flow_lpm = 0.0`,
`flow_detected = False`, `last_flow_ts = now`, and one push happens.  On a
write failure the exception is logged and re-raised before any cache
mutation and before any push (`Except.error` carries the unchanged state
and a publish count of 0). -/
def writePump (s : DevState) (onb writeOk : Bool) (now : ℚ) :
    Except (DevState × ℕ) (DevState × ℕ) :=
  if writeOk then
    let s1 := { s with pump_on := onb }
    if onb then Except.ok (s1, 1)
    else
      let s2 :=
        match s1.last_flow_ts with
        | some ts =>
          { s1 with total_volume_l :=
              s1.total_volume_l + s1.flow_lpm.getD 0 / 60 * max 0 (now - ts) }
        | none => s1
      Except.ok ({ s2 with flow_lpm := some 0
                           flow_detected := false
                           last_flow_ts := some now }, 1)
  else Except.error (s, 0)

/-- Publish count of a `_write_pump` outcome, whether it returned or raised. -/
def pushesOf (e : Except (DevState × ℕ) (DevState × ℕ)) : ℕ :=
  match e with
  | .ok (_, n) => n
  | .error (_, n) => n

/-- The keys of the snapshot dict built by `IrrigationBLE._push`
(lines 279-285) and handed directly to
`coordinator.async_set_updated_data` via `call_soon_threadsafe`. -/
def pushPayloadKeys : List String :=
  ["pump_on", "flow_lpm", "error_code", "flow_detected", "total_volume_l"]

/-- Coordinator-side flow detection,
`(flow_lpm is not None) and (flow_lpm >= FLOW_THRESHOLD_LPM)`
(`coordinator.py` line 87). -/
def coordFlowDetected (flow : Option ℚ) : Bool :=
  match flow with
  | none => false
  | some r => decide (FLOW_THRESHOLD_LPM ≤ r)

/-- Error-code resolution block of `handle_state_update`
(`coordinator.py` lines 113-120): device error wins, then dry-run, then
missing flow, then OK. -/
def resolveCode (error_code : ℕ) (dry : Bool) (flow : Option ℚ) : ℕ :=
  if error_code ≠ ERROR_OK then error_code
  else if dry then ERROR_DRY_RUN
  else if flow = none then ERROR_SENSOR_FAULT
  else ERROR_OK

/-- `coordinator._err_msg` (lines 134-140): dict lookup with an
"Unknown error" default. -/
def errMsg (code : ℕ) : String :=
  if code = ERROR_OK then "OK"
  else if code = ERROR_DRY_RUN then "Dry run detected"
  else if code = ERROR_SENSOR_FAULT then "Flow sensor fault"
  else "Unknown error"

/-- Internal state of `IrrigationCoordinator` relevant to derived-state
evaluation: the `self._no_flow_since` timestamp. -/
structure CoordState where
  no_flow_since : Option ℚ
deriving DecidableEq, Repr

/-- The `self.data` snapshot written by `handle_state_update`. -/
structure CoordData where
  pump_on : Bool
  flow_lpm : Option ℚ
  flow_detected : Bool
  dry_run : Bool
  error_code : ℕ
  error_message : String
deriving DecidableEq, Repr

/-- One input event to `handle_state_update`: the raw values passed in
plus the `monotonic()` reading taken inside the call. -/
structure CoordInput where
  pump_on : Bool
  flow_lpm : Option ℚ
  error_code : ℕ
  now : ℚ
deriving DecidableEq, Repr

/-- `IrrigationCoordinator.handle_state_update` (`coordinator.py`
lines 76-129): stores the raw values, computes `flow_detected`, runs the
dry-run hysteresis on `no_flow_since`, resolves the prioritized error
code and message, and emits the resulting snapshot. -/
def handleStateUpdate (st : CoordState) (u : CoordInput) :
    CoordState × CoordData :=
  let fd := coordFlowDetected u.flow_lpm
  let p : Option ℚ × Bool :=
    if u.pump_on && !fd then
      match st.no_flow_since with
      | none => (some u.now, false)
      | some t0 => (some t0, decide (DRY_RUN_DELAY_SEC ≤ u.now - t0))
    else (none, false)
  let code := resolveCode u.error_code p.2 u.flow_lpm
  (⟨p.1⟩,
   { pump_on := u.pump_on
     flow_lpm := u.flow_lpm
     flow_detected := fd
     dry_run := p.2
     error_code := code
     error_message := errMsg code })

/-- Run a sequence of `handle_state_update` calls, collecting the emitted
snapshots in order. -/
def runUpdates (st : CoordState) (us : List CoordInput) :
    CoordState × List CoordData :=
  match us with
  | [] => (st, [])
  | u :: rest =>
    let r1 := handleStateUpdate st u
    let r2 := runUpdates r1.1 rest
    (r2.1, r1.2 :: r2.2)

/-!  Theorems about the claims. -/

/-- Claim C1 (refuted, code bug): device events do not reach the
derived-state evaluator.  `IrrigationBLE._push` hands its payload straight
to `async_set_updated_data`, never calling `handle_state_update`, so the
snapshot delivered to observers carries exactly the five raw keys and is
missing the derived `dry_run` and `error_message` fields the claim
requires. -/
theorem c1_push_payload_missing_derived_fields :
    ("dry_run" ∉ pushPayloadKeys ∧ "error_message" ∉ pushPayloadKeys)
    ∧ "pump_on" ∈ pushPayloadKeys ∧ "flow_lpm" ∈ pushPayloadKeys
    ∧ "error_code" ∈ pushPayloadKeys ∧ "flow_detected" ∈ pushPayloadKeys
    ∧ "total_volume_l" ∈ pushPayloadKeys := by decide

/-- Claim C2 (refuted, code bug): after the flow notification
`b'\x00\x00\x80\x3f'` on a fresh connection, the cached `flow_lpm` is
indeed 1.0, but the `NameError` on `self._flow_lpm = flow` aborts the
handler before `flow_detected` is recomputed and before `last_flow_ts` is
set, so `flow_detected` stays `false` and `last_flow_ts` stays unset —
contradicting the claim's `flow_detected == true` and updated
`last_flow_ts`. -/
theorem c2_flow_notif_namerror_bug :
    (onFlowNotif initState [0, 0, 128, 63] 0).1.flow_lpm = some 1
    ∧ (onFlowNotif initState [0, 0, 128, 63] 0).1.flow_detected = false
    ∧ (onFlowNotif initState [0, 0, 128, 63] 0).1.last_flow_ts = none := by
  refine ⟨?_, ?_, ?_⟩ <;> norm_num [onFlowNotif, decodeFlow, f32le, initState]

/-- Claim C3 counterexample: when every initial read succeeds (and the
flow read returns 4 bytes), `_read_initial` publishes twice — once inside
the flow-read block (line 159) and once at the end (line 166) — refuting
"every handler publishes exactly once per invocation". -/
theorem c3_counterexample_double_push :
    (readInitial initState (some [1]) (some [0, 0, 128, 63]) (some [2]) 7).2 = 2 := rfl

/-- Claim C3 (amended): the flow-notification, error-notification and
disconnect handlers publish exactly once per invocation, including on
decode failure; `_read_initial` publishes twice when the initial flow
read succeeds with a 4-byte payload and once otherwise; a pump-state
write publishes once on success and zero times when the write raises. -/
theorem c3_amended_publish_counts (s : DevState) (data : List ℕ) (now : ℚ)
    (rPump rFlow rErr : Option (List ℕ)) (onb : Bool) :
    (onFlowNotif s data now).2 = 1
    ∧ (onErrorNotif s data).2 = 1
    ∧ (onDisconnect s).2 = 1
    ∧ (readInitial s rPump rFlow rErr now).2 = (if flowReadOk rFlow then 2 else 1)
    ∧ pushesOf (writePump s onb true now) = 1
    ∧ pushesOf (writePump s onb false now) = 0 := by
  refine ⟨?_, ?_, rfl, ?_, ?_, rfl⟩
  · rcases h : decodeFlow data with _ | v <;> simp [onFlowNotif, h]
  · cases data <;> rfl
  · rcases rFlow with _ | d
    · rfl
    · rcases d with _ | ⟨a, _ | ⟨b, _ | ⟨c, _ | ⟨e, _ | ⟨f, rest⟩⟩⟩⟩⟩ <;>
        simp [readInitial, flowReadOk]
  · cases onb
    · cases h : s.last_flow_ts <;> simp [writePump, pushesOf, h]
    · simp [writePump, pushesOf]

/-- Claim C4 counterexample: a 4-byte flow payload decoding to the
IEEE-754 value -1.0 (`b'\x00\x00\x80\xbf'`) with one minute elapsed since
`last_flow_ts` makes `total_volume_l` drop from 1 to 0, refuting
monotonicity "for all possible decoded flow values". -/
theorem c4_counterexample_negative_flow :
    (onFlowNotif { initState with last_flow_ts := some 0, total_volume_l := 1 }
        [0, 0, 128, 191] 60).1.total_volume_l
      < ({ initState with last_flow_ts := some 0, total_volume_l := 1 } : DevState).total_volume_l := by
  norm_num [onFlowNotif, decodeFlow, f32le, initState]

/-- Claim C4 (amended): `total_volume_l` is non-decreasing across every
flow notification whose decoded value is non-negative (and unchanged when
the payload is rejected), and across every `turn_off` whose cached flow
value is non-negative; the elapsed-time factor is clamped at 0, so this
holds for all timestamps. -/
theorem c4_amended_volume_monotone (s : DevState) (data : List ℕ) (now : ℚ) (v : ℚ) :
    (decodeFlow data = some v → 0 ≤ v →
      s.total_volume_l ≤ (onFlowNotif s data now).1.total_volume_l)
    ∧ (decodeFlow data = none →
      (onFlowNotif s data now).1.total_volume_l = s.total_volume_l)
    ∧ (0 ≤ s.flow_lpm.getD 0 →
      ∀ s2 n, writePump s false true now = Except.ok (s2, n) →
        s.total_volume_l ≤ s2.total_volume_l) := by
  refine ⟨?_, ?_, ?_⟩
  · intro hd hv
    cases h : s.last_flow_ts with
    | none => simp [onFlowNotif, hd, h]
    | some ts =>
      simp only [onFlowNotif, hd, h]
      simp only [Option.getD_some]
      exact le_add_of_nonneg_right
        (mul_nonneg (div_nonneg hv (by norm_num)) (le_max_left 0 _))
  · intro hd
    simp [onFlowNotif, hd]
  · intro h0 s2 n heq
    cases h : s.last_flow_ts with
    | none =>
      simp [writePump, h] at heq
      rw [← heq.1]
    | some ts =>
      simp [writePump, h] at heq
      rw [← heq.1]
      exact le_add_of_nonneg_right
        (mul_nonneg (div_nonneg h0 (by norm_num)) (le_max_left 0 _))

/-- Witness for the amended C4 theorem: a 1-byte payload decoding to
10 L/min does not decrease the accumulator of the fresh state. -/
theorem c4_amended_volume_monotone_witness :
    initState.total_volume_l ≤ (onFlowNotif initState [10] 0).1.total_volume_l :=
  (c4_amended_volume_monotone initState [10] 0 ((10 : ℕ) : ℚ)).1 rfl (by norm_num)

/-- Claim C5 (confirmed): a successful `turn_off` adds
`flow_lpm / 60 * max 0 (now - last_flow_ts)` to `total_volume_l`, then
forces `flow_lpm = 0`, `flow_detected = false` (and `pump_on = false`,
`last_flow_ts = now`) in the single published snapshot; in particular
with `flow_lpm = 2` and `last_flow_ts` 3 seconds prior the accumulator
grows by exactly 1/10. -/
theorem c5_turn_off_integrates (s : DevState) (now ts : ℚ) :
    (s.last_flow_ts = some ts →
      writePump s false true now
        = Except.ok ({ s with
            pump_on := false
            flow_lpm := some 0
            flow_detected := false
            last_flow_ts := some now
            total_volume_l :=
              s.total_volume_l + s.flow_lpm.getD 0 / 60 * max 0 (now - ts) }, 1))
    ∧ (s.flow_lpm = some 2 → s.last_flow_ts = some (now - 3) →
      writePump s false true now
        = Except.ok ({ s with
            pump_on := false
            flow_lpm := some 0
            flow_detected := false
            last_flow_ts := some now
            total_volume_l := s.total_volume_l + 1 / 10 }, 1)) := by
  have key : ∀ ts0 : ℚ, s.last_flow_ts = some ts0 →
      writePump s false true now
        = Except.ok ({ s with
            pump_on := false
            flow_lpm := some 0
            flow_detected := false
            last_flow_ts := some now
            total_volume_l :=
              s.total_volume_l + s.flow_lpm.getD 0 / 60 * max 0 (now - ts0) }, 1) := by
    intro ts0 h
    simp [writePump, h]
  refine ⟨key ts, ?_⟩
  intro hf h
  rw [key (now - 3) h]
  have harith : s.flow_lpm.getD 0 / 60 * max 0 (now - (now - 3)) = 1 / 10 := by
    rw [hf]
    norm_num
  rw [harith]

/-- Witness for C5: the concrete scenario `flow_lpm = 2`, `last_flow_ts`
at 0, `turn_off` at time 3 yields exactly +1/10 litres. -/
theorem c5_turn_off_witness :
    writePump { initState with flow_lpm := some 2, last_flow_ts := some 0 } false true 3
      = Except.ok ({ initState with
          pump_on := false
          flow_lpm := some 0
          flow_detected := false
          last_flow_ts := some 3
          total_volume_l := initState.total_volume_l + 1 / 10 }, 1) :=
  (c5_turn_off_integrates { initState with flow_lpm := some 2, last_flow_ts := some 0 }
      3 0).2 rfl (by norm_num)

/-- Claim C6 (confirmed): a flow notification whose length is not 4, 2
or 1 leaves the entire cached state (hence `flow_lpm`, `total_volume_l`
and `last_flow_ts`) unchanged, and an empty error-code notification
leaves `error_code` unchanged; both still publish exactly once. -/
theorem c6_malformed_retains_state (s : DevState) (data : List ℕ) (now : ℚ) :
    (data.length ≠ 4 → data.length ≠ 2 → data.length ≠ 1 →
      onFlowNotif s data now = (s, 1))
    ∧ onErrorNotif s [] = (s, 1) := by
  constructor
  · intro h4 h2 h1
    have hd : decodeFlow data = none := by
      rcases data with _ | ⟨a, _ | ⟨b, _ | ⟨c, _ | ⟨d, _ | ⟨e, rest⟩⟩⟩⟩⟩
      · rfl
      · exact absurd rfl h1
      · exact absurd rfl h2
      · rfl
      · exact absurd rfl h4
      · rfl
    simp [onFlowNotif, hd]
  · rfl

/-- Witness for C6: a 5-byte flow payload and an empty error payload both
leave the fresh state untouched while publishing once. -/
theorem c6_malformed_witness :
    onFlowNotif initState [0, 0, 0, 0, 0] 0 = (initState, 1)
    ∧ onErrorNotif initState [] = (initState, 1) :=
  ⟨(c6_malformed_retains_state initState [0, 0, 0, 0, 0] 0).1
      (by decide) (by decide) (by decide),
   (c6_malformed_retains_state initState [] 0).2⟩

/-- Step of the dry-run hysteresis that opens a no-flow window: with the
pump on, flow undetected and no window open, `no_flow_since` is set to
`now` and `dry_run` is reported false. -/
lemma handleStateUpdate_noflow_start (st : CoordState) (u : CoordInput)
    (hp : u.pump_on = true) (hf : coordFlowDetected u.flow_lpm = false)
    (h0 : st.no_flow_since = none) :
    (handleStateUpdate st u).1.no_flow_since = some u.now
    ∧ (handleStateUpdate st u).2.dry_run = false := by
  simp [handleStateUpdate, hp, hf, h0]

/-- Step of the dry-run hysteresis inside an open no-flow window: the
window anchor is kept and `dry_run` compares the elapsed time against
`DRY_RUN_DELAY_SEC`. -/
lemma handleStateUpdate_noflow_cont (st : CoordState) (u : CoordInput) (t0 : ℚ)
    (hp : u.pump_on = true) (hf : coordFlowDetected u.flow_lpm = false)
    (h0 : st.no_flow_since = some t0) :
    (handleStateUpdate st u).1.no_flow_since = some t0
    ∧ (handleStateUpdate st u).2.dry_run
        = decide (DRY_RUN_DELAY_SEC ≤ u.now - t0) := by
  simp [handleStateUpdate, hp, hf, h0]

/-- A run of pump-on, flow-undetected updates inside a no-flow window
anchored at `t0` reports `dry_run` exactly when the update is
`DRY_RUN_DELAY_SEC` or more past `t0`. -/
lemma runUpdates_noflow_from (t0 : ℚ) (us : List CoordInput) :
    ∀ st : CoordState, st.no_flow_since = some t0 →
    (∀ u ∈ us, u.pump_on = true ∧ coordFlowDetected u.flow_lpm = false) →
    (runUpdates st us).2.map CoordData.dry_run
      = us.map (fun u => decide (DRY_RUN_DELAY_SEC ≤ u.now - t0)) := by
  induction us with
  | nil => intro st _ _; rfl
  | cons u rest ih =>
    intro st h0 hall
    have hu := hall u (List.mem_cons_self u rest)
    have h1 := handleStateUpdate_noflow_cont st u t0 hu.1 hu.2 h0
    have hrest : ∀ x ∈ rest, x.pump_on = true ∧ coordFlowDetected x.flow_lpm = false :=
      fun x hx => hall x (List.mem_cons_of_mem u hx)
    simp only [runUpdates, List.map_cons]
    rw [h1.2, ih (handleStateUpdate st u).1 h1.1 hrest]

/-- Claim C7 (confirmed): starting with no open no-flow window, a
continuous sequence of pump-on, flow-undetected updates reports
`dry_run = false` for every update strictly less than
`DRY_RUN_DELAY_SEC` after the first one (which opens the window) and
`dry_run = true` for every update at or past that delay; and any single
update with the pump off or flow detected reports `dry_run = false` and
clears the no-flow timer. -/
theorem c7_dry_run_hysteresis :
    (∀ (st : CoordState) (u0 : CoordInput) (rest : List CoordInput),
      st.no_flow_since = none →
      (∀ u ∈ u0 :: rest, u.pump_on = true ∧ coordFlowDetected u.flow_lpm = false) →
      (runUpdates st (u0 :: rest)).2.map CoordData.dry_run
        = (u0 :: rest).map (fun u => decide (DRY_RUN_DELAY_SEC ≤ u.now - u0.now)))
    ∧ (∀ (st : CoordState) (u : CoordInput),
      u.pump_on = false ∨ coordFlowDetected u.flow_lpm = true →
      (handleStateUpdate st u).2.dry_run = false
        ∧ (handleStateUpdate st u).1.no_flow_since = none) := by
  constructor
  · intro st u0 rest h0 hall
    have hu := hall u0 (List.mem_cons_self u0 rest)
    have h1 := handleStateUpdate_noflow_start st u0 hu.1 hu.2 h0
    have hrest : ∀ x ∈ rest, x.pump_on = true ∧ coordFlowDetected x.flow_lpm = false :=
      fun x hx => hall x (List.mem_cons_of_mem u0 hx)
    simp only [runUpdates, List.map_cons]
    rw [h1.2, runUpdates_noflow_from u0.now rest (handleStateUpdate st u0).1 h1.1 hrest]
    have : ¬ (DRY_RUN_DELAY_SEC ≤ u0.now - u0.now) := by
      rw [sub_self]
      norm_num [DRY_RUN_DELAY_SEC]
    simp [this]
    norm_num [DRY_RUN_DELAY_SEC]
  · intro st u h
    rcases h with h | h
    · simp [handleStateUpdate, h]
    · simp [handleStateUpdate, h]

/-- Witness for C7: pump-on no-flow updates at times 0, 3 and 5 with a
5-second delay yield `dry_run` values false, false, true, and a
pump-off update clears `dry_run`. -/
theorem c7_dry_run_hysteresis_witness :
    (runUpdates ⟨none⟩
        [⟨true, none, 0, 0⟩, ⟨true, none, 0, 3⟩, ⟨true, none, 0, 5⟩]).2.map
        CoordData.dry_run
      = [false, false, true]
    ∧ (handleStateUpdate ⟨some 0⟩ ⟨false, none, 0, 9⟩).2.dry_run = false := by
  constructor
  · have h := c7_dry_run_hysteresis.1 ⟨none⟩ ⟨true, none, 0, 0⟩
      [⟨true, none, 0, 3⟩, ⟨true, none, 0, 5⟩] rfl (by decide)
    rw [h]
    norm_num [DRY_RUN_DELAY_SEC]
  · exact (c7_dry_run_hysteresis.2 ⟨some 0⟩ ⟨false, none, 0, 9⟩ (Or.inl rfl)).1

/-- Claim C8 (confirmed): the resolved error code follows a strict
priority — a non-zero device error code always wins, else a true
`dry_run` yields `ERROR_DRY_RUN`, else an absent flow reading yields
`ERROR_SENSOR_FAULT`, else `ERROR_OK`. -/
theorem c8_error_priority (st : CoordState) (u : CoordInput) :
    (u.error_code ≠ ERROR_OK →
      (handleStateUpdate st u).2.error_code = u.error_code)
    ∧ (u.error_code = ERROR_OK → (handleStateUpdate st u).2.dry_run = true →
      (handleStateUpdate st u).2.error_code = ERROR_DRY_RUN)
    ∧ (u.error_code = ERROR_OK → (handleStateUpdate st u).2.dry_run = false →
      u.flow_lpm = none →
      (handleStateUpdate st u).2.error_code = ERROR_SENSOR_FAULT)
    ∧ (u.error_code = ERROR_OK → (handleStateUpdate st u).2.dry_run = false →
      u.flow_lpm ≠ none →
      (handleStateUpdate st u).2.error_code = ERROR_OK) := by
  have hr : (handleStateUpdate st u).2.error_code
      = resolveCode u.error_code ((handleStateUpdate st u).2.dry_run) u.flow_lpm := rfl
  refine ⟨?_, ?_, ?_, ?_⟩
  · intro h
    rw [hr]
    simp [resolveCode, h]
  · intro h hd
    rw [hr, hd]
    simp [resolveCode, h]
  · intro h hd hf
    rw [hr, hd]
    simp [resolveCode, h, hf]
  · intro h hd hf
    rw [hr, hd]
    simp [resolveCode, h, hf]

/-- Witness for C8: device error 7 with an active dry-run window and an
absent flow reading resolves to 7. -/
theorem c8_error_priority_witness :
    (handleStateUpdate ⟨some 0⟩ ⟨true, none, 7, 10⟩).2.error_code = 7 :=
  (c8_error_priority ⟨some 0⟩ ⟨true, none, 7, 10⟩).1 (by decide)

/-- Claim C9 (confirmed): the device state machine detects flow at
0.05 L/min while the derived-state evaluator requires
`FLOW_THRESHOLD_LPM = 0.2`, so every present reading in [0.05, 0.2) is
detected on the device side and undetected on the evaluator side. -/
theorem c9_threshold_mismatch (r : ℚ) (h1 : (0.05 : ℚ) ≤ r) (h2 : r < (0.2 : ℚ)) :
    deviceFlowDetected (some r) = true ∧ coordFlowDetected (some r) = false := by
  constructor
  · simpa [deviceFlowDetected, flowDetectThresh] using h1
  · simp [coordFlowDetected, FLOW_THRESHOLD_LPM]
    exact h2

/-- Witness for C9: the reading 0.1 L/min is detected by the device and
not by the evaluator. -/
theorem c9_threshold_mismatch_witness :
    deviceFlowDetected (some 0.1) = true ∧ coordFlowDetected (some 0.1) = false :=
  c9_threshold_mismatch 0.1 (by norm_num) (by norm_num)

/-- Claim C10 (confirmed): when the pump-state characteristic write
raises, `_write_pump` re-raises before any cache mutation and before any
publish, so the entire cached state is unchanged, zero snapshots are
published, and the error propagates to the caller. -/
theorem c10_write_failure_atomic (s : DevState) (onb : Bool) (now : ℚ) :
    writePump s onb false now = Except.error (s, 0) := rfl

end Bg22Hydro
